import Mathlib

/-!
Verification development for the phone-number validator bot
(`src/bot.py`): number normalization, extraction, batch processing,
filter/bucketing, manual configuration parsing, and the inline-button
callback handler are embedded shallowly as Lean definitions, translated
from the Python source, and the frozen specification claims are settled
as theorems about them.

Conventions of the embedding:
* Python strings are modelled as `String` / `List Char`; the character
  classes of `str.strip()` and the regex `\s` are modelled by their ASCII
  members (the inputs of interest are ASCII).
* Python exceptions are modelled with `Except String`: an expression that
  raises propagates as `Except.error`, exactly as an uncaught exception
  propagates out of the enclosing Python function.
* `asyncio` concurrency is irrelevant to the data flow: within a batch the
  checker tasks are created and then awaited one number at a time in input
  order, so the run is equivalent to a sequential left fold over the input
  list; batching (size 10) and the inter-batch sleep affect pacing only.
-/

namespace Bot

/-- ASCII members of Python's `str.strip()` / regex `\s` whitespace class:
space, tab, newline, carriage return, vertical tab, form feed. -/
def pyIsSpace (c : Char) : Bool :=
  c == ' ' || c == '\t' || c == '\n' || c == '\x0d' || c == '\x0b' || c == '\x0c'

/-- Python `str.strip()` on a character list: drop leading and trailing
whitespace. -/
def pyStrip (l : List Char) : List Char :=
  ((l.dropWhile pyIsSpace).reverse.dropWhile pyIsSpace).reverse

/-- Python `str.strip()` on a `String`. -/
def pyStripStr (s : String) : String :=
  String.mk (pyStrip s.data)

/-- Python `str.lower()` (ASCII). -/
def pyLower (s : String) : String :=
  String.mk (s.data.map Char.toLower)

/-- Characters kept by `re.sub(r'[\s\-()]', '', number)` (bot.py line 116):
everything except whitespace, dashes and parentheses. -/
def keepChar (c : Char) : Bool :=
  !(pyIsSpace c || c == '-' || c == '(' || c == ')')

/-- bot.py lines 119-120: drop a single leading `+` if present. -/
def dropLeadingPlus : List Char → List Char
  | '+' :: rest => rest
  | l => l

/-- The static country-code allow-list `VALID_COUNTRY_CODES`
(bot.py lines 34-55), transcribed entry by entry.  The Python literal is a
set (so the duplicated entries `'234'` and `'237'` collapse); only
membership is ever used, which a list with duplicates models faithfully. -/
def VALID_COUNTRY_CODES : List String :=
  ["234", "237", "7", "20", "33", "44", "49", "55", "81", "82",
   "86", "91", "92", "93", "94", "98", "212", "213", "216", "218",
   "220", "221", "222", "223", "224", "225", "226", "227", "228",
   "229", "230", "231", "232", "233", "234", "235", "236", "237",
   "238", "239", "240", "241", "242", "243", "244", "245", "246",
   "247", "248", "249", "250", "251", "252", "253", "254", "255",
   "256", "257", "258", "259", "260", "261", "262", "263", "264",
   "265", "266", "267", "268", "269", "290", "291", "297", "298",
   "299", "350", "351", "352", "353", "354", "355", "356", "357",
   "358", "359", "370", "371", "372", "373", "374", "375", "376",
   "377", "378", "379", "380", "381", "382", "383", "385", "386",
   "387", "389", "420", "421", "423", "500", "501", "502", "503",
   "504", "505", "506", "507", "508", "509", "590", "591", "592",
   "593", "594", "595", "596", "597", "598", "599", "670", "672",
   "673", "674", "675", "676", "677", "678", "679", "680", "681",
   "682", "683", "685", "686", "687", "688", "689", "690", "691",
   "692", "850", "852", "853", "855", "856", "880", "886", "960",
   "961", "962", "963", "964", "965", "966", "967", "968", "970",
   "971", "972", "973", "974", "975", "976", "977", "992", "993",
   "994", "995", "996", "998"]

/-- bot.py lines 129-138: the country-code acceptance phase of
`normalize_phone_number`, applied after the length check.  The Python loop
`for cc in VALID_COUNTRY_CODES: if number.startswith(cc): if len(number) >
len(cc): return number` returns the unchanged string on the first code that
is a proper prefix (set iteration order is immaterial because every success
returns the same value); otherwise the string is accepted iff its length is
at least 10. -/
def acceptCountry (n4 : List Char) : Option String :=
  if VALID_COUNTRY_CODES.any
      (fun cc => cc.data.isPrefixOf n4 && decide (cc.data.length < n4.length)) then
    some (String.mk n4)
  else if 10 ≤ n4.length then some (String.mk n4) else none

/-- bot.py lines 113-123: canonicalization pipeline of
`normalize_phone_number` — `strip()`, remove `[\s\-()]`, drop a single
leading `+`, `lstrip('0')`. -/
def normCanon (number : String) : List Char :=
  (dropLeadingPlus ((pyStrip number.data).filter keepChar)).dropWhile
    (fun c => c == '0')

/-- bot.py lines 125-138: length gate (`len < 8 or len > 15` returns
`None`) followed by the country-code acceptance phase. -/
def normAccept (n4 : List Char) : Option String :=
  if n4.length < 8 ∨ 15 < n4.length then none else acceptCountry n4

/-- `normalize_phone_number` (bot.py lines 108-138). -/
def normalize_phone_number (number : String) : Option String :=
  normAccept (normCanon number)

/-- Splitting a character list at every occurrence of a delimiter
character, keeping empty pieces — Python `str.split(d)` for a single
character `d`. -/
def splitOnChar (d : Char) : List Char → List (List Char)
  | [] => [[]]
  | c :: rest =>
    if c == d then [] :: splitOnChar d rest
    else
      match splitOnChar d rest with
      | [] => [[c]]
      | g :: gs => (c :: g) :: gs

/-- The delimiter class of `re.split(r'[,\s;]+', line)` (bot.py line 148). -/
def isPartDelim (c : Char) : Bool :=
  c == ',' || c == ';' || pyIsSpace c

/-- Accumulator worker for `splitParts`. -/
def splitPartsAux : List Char → List Char → List (List Char)
  | [], acc => if acc.isEmpty then [] else [acc.reverse]
  | c :: rest, acc =>
    if isPartDelim c then
      if acc.isEmpty then splitPartsAux rest []
      else acc.reverse :: splitPartsAux rest []
    else splitPartsAux rest (c :: acc)

/-- The nonempty tokens of `re.split(r'[,\s;]+', line)` — the Python code
iterates the split with `if part:` (bot.py lines 148-150), which keeps
exactly the maximal runs of non-delimiter characters. -/
def splitParts (l : List Char) : List (List Char) :=
  splitPartsAux l []

/-- The numbers appended by `extract_numbers_from_text` before the final
deduplication (bot.py lines 142-153): split into lines, strip each line,
split into parts, normalize each part, keep the successes. -/
def rawExtractedNumbers (text : String) : List String :=
  (splitOnChar '\n' text.data).flatMap fun line =>
    (splitParts (pyStrip line)).filterMap fun part =>
      normalize_phone_number (String.mk part)

/-- `extract_numbers_from_text` (bot.py lines 140-155).  The Python
`list(set(numbers))` has unspecified order; only set membership of the
result is ever relied on, modelled by `List.dedup`. -/
def extract_numbers_from_text (text : String) : List String :=
  (rawExtractedNumbers text).dedup

/-- The numbers collected by the `.csv` branch of
`extract_numbers_from_file` (bot.py lines 166-175): split into lines, split
each line on commas, strip each cell, normalize. -/
def csvRawNumbers (text : String) : List String :=
  (splitOnChar '\n' text.data).flatMap fun line =>
    (splitOnChar ',' line).filterMap fun cell =>
      normalize_phone_number (pyStripStr (String.mk cell))

/-- `extract_numbers_from_file` (bot.py lines 157-180).  File bytes are
modelled post lossy decode as a `String` (`decode('utf-8', errors='ignore')`
never raises). -/
def extract_numbers_from_file (content : String) (filename : String) : List String :=
  let numbers :=
    if ".txt".data.isSuffixOf filename.data then extract_numbers_from_text content
    else if ".csv".data.isSuffixOf filename.data then csvRawNumbers content
    else []
  numbers.dedup

/-- Polarity filter values of `whatsapp_type` / `sms_type`
(`'all' | 'on' | 'off'`, bot.py lines 66-67). -/
inductive PType
  | all
  | on
  | off
deriving DecidableEq

/-- The `UserData.operations` dictionary (bot.py lines 62-68). -/
structure Operations where
  whatsapp : Bool
  sms : Bool
  combo_mode : Bool
  whatsapp_type : PType
  sms_type : PType
deriving DecidableEq

/-- The defaults installed by `UserData.__init__` (bot.py lines 62-68),
also restored by the `op_reset` button (lines 622-630). -/
def defaultOperations : Operations :=
  ⟨true, true, false, PType.all, PType.all⟩

/-- The `whatsapp_result` dictionary (bot.py lines 274-277). -/
structure WaResult where
  status : Bool
  message : String
deriving DecidableEq

/-- The `sms_result` dictionary (bot.py lines 281-285). -/
structure SmsResult where
  status : Bool
  message : String
  wait_time : Option String
deriving DecidableEq

/-- One entry of `results['processed']` (bot.py lines 327-331). -/
structure ProcessedEntry where
  number : String
  whatsapp : Option WaResult
  sms : Option SmsResult
deriving DecidableEq

/-- The `results` dictionary of `process_numbers` (bot.py lines 230-237). -/
structure Results where
  whatsapp_on : List String
  whatsapp_off : List String
  sms_on : List String
  sms_off : List String
  combo : List String
  processed : List ProcessedEntry
deriving DecidableEq

/-- The `stats` dictionary of `process_numbers` (bot.py lines 239-246). -/
structure RunStats where
  total : Nat
  whatsapp_on : Nat
  whatsapp_off : Nat
  sms_on : Nat
  sms_off : Nat
  combo : Nat
deriving DecidableEq

/-- The checker port (spec section 4.2): one asynchronous check per
(number, kind) pair.  An `Except.error` models the check raising an
exception; the concrete simulation functions of bot.py are one instance,
and the seam is where a production backend is plugged in. -/
structure CheckerPort where
  whatsapp : String → Except String WaResult
  sms : String → Except String SmsResult

/-- `check_whatsapp_status` (bot.py lines 185-200): deterministic
simulation keyed on the last digit mod 3.  `number[-1]` on an empty string
raises `IndexError`, modelled by the `error` branch. -/
def check_whatsapp_status (number : String) : Except String WaResult :=
  match number.data.getLast? with
  | none => .error "IndexError: string index out of range"
  | some c =>
    let last_digit := if c.isDigit then c.toNat - '0'.toNat else 0
    if last_digit % 3 == 0 then .ok ⟨false, "Not on WhatsApp"⟩
    else if last_digit % 3 == 1 then .ok ⟨true, "On WhatsApp"⟩
    else .ok ⟨false, "Not on WhatsApp"⟩

/-- `check_sms_status` (bot.py lines 202-221): simulation keyed on the
last digit mod 4.  `wait` stands for the value produced by
`random.randint` for this call; the claims never depend on it. -/
def check_sms_status (wait : Nat) (number : String) : Except String SmsResult :=
  match number.data.getLast? with
  | none => .error "IndexError: string index out of range"
  | some c =>
    let last_digit := if c.isDigit then c.toNat - '0'.toNat else 0
    if last_digit % 4 == 0 then .ok ⟨true, "Can receive SMS", none⟩
    else if last_digit % 4 == 1 then
      .ok ⟨false, "Try again in " ++ toString wait ++ " min", some (toString wait ++ ":00")⟩
    else if last_digit % 4 == 2 then
      .ok ⟨false, "Try again in " ++ toString wait ++ " min", some (toString wait ++ ":00")⟩
    else .ok ⟨false, "Cannot receive SMS", none⟩

/-- The port hard-wired by `process_numbers` in bot.py: the two simulation
checkers. -/
def simPort (wait : Nat) : CheckerPort :=
  ⟨check_whatsapp_status, check_sms_status wait⟩

/-- A port built from total (never-raising) outcome functions. -/
def totalPort (w : String → WaResult) (s : String → SmsResult) : CheckerPort :=
  ⟨fun n => .ok (w n), fun n => .ok (s n)⟩

/-- A port whose checks always raise. -/
def failingPort : CheckerPort :=
  ⟨fun _ => .error "boom", fun _ => .error "boom"⟩

/-- Evaluation of the per-kind polarity filter (bot.py lines 287-301).
`whatsapp_match`/`sms_match` start as `True` and are overwritten only when
the kind is enabled and its type is `'on'` or `'off'`; the Python
conditional expression `r['status'] if r else False` is
`(r.map status).getD false`. -/
def matchOf (enabled : Bool) (pty : PType) (status? : Option Bool) : Bool :=
  if enabled then
    match pty with
    | PType.on => status?.getD false
    | PType.off => (status?.map (!·)).getD false
    | PType.all => true
  else true

/-- bot.py lines 305-307: append to the `combo` bucket and bump its stat. -/
def comboAdd (n : String) (st : Results × RunStats) : Results × RunStats :=
  ({st.1 with combo := st.1.combo ++ [n]}, {st.2 with combo := st.2.combo + 1})

/-- bot.py lines 310-316: the non-combo WhatsApp classification —
executed only when `whatsapp_match and operations['whatsapp']`; the
bucket is chosen by `whatsapp_result and whatsapp_result['status']`. -/
def waClassify (ops : Operations) (n : String) (wr : Option WaResult)
    (st : Results × RunStats) : Results × RunStats :=
  if matchOf ops.whatsapp ops.whatsapp_type (wr.map (·.status)) && ops.whatsapp then
    if (wr.map (·.status)).getD false then
      ({st.1 with whatsapp_on := st.1.whatsapp_on ++ [n]},
       {st.2 with whatsapp_on := st.2.whatsapp_on + 1})
    else
      ({st.1 with whatsapp_off := st.1.whatsapp_off ++ [n]},
       {st.2 with whatsapp_off := st.2.whatsapp_off + 1})
  else st

/-- bot.py lines 318-324: the non-combo SMS classification, symmetric to
`waClassify`. -/
def smsClassify (ops : Operations) (n : String) (sr : Option SmsResult)
    (st : Results × RunStats) : Results × RunStats :=
  if matchOf ops.sms ops.sms_type (sr.map (·.status)) && ops.sms then
    if (sr.map (·.status)).getD false then
      ({st.1 with sms_on := st.1.sms_on ++ [n]},
       {st.2 with sms_on := st.2.sms_on + 1})
    else
      ({st.1 with sms_off := st.1.sms_off ++ [n]},
       {st.2 with sms_off := st.2.sms_off + 1})
  else st

/-- bot.py lines 303-324: combo branch versus the two independent
per-kind classifications. -/
def stepBuckets (ops : Operations) (n : String) (wr : Option WaResult)
    (sr : Option SmsResult) (st : Results × RunStats) : Results × RunStats :=
  if ops.combo_mode then
    if matchOf ops.whatsapp ops.whatsapp_type (wr.map (·.status)) &&
        matchOf ops.sms ops.sms_type (sr.map (·.status)) then
      comboAdd n st
    else st
  else smsClassify ops n sr (waClassify ops n wr st)

/-- bot.py lines 326-331: the unconditional append to
`results['processed']`. -/
def stepProcessed (n : String) (wr : Option WaResult) (sr : Option SmsResult)
    (st : Results × RunStats) : Results × RunStats :=
  ({st.1 with processed := st.1.processed ++ [⟨n, wr, sr⟩]}, st.2)

/-- The full per-number bucketing of one loop iteration
(bot.py lines 287-331), after both outcomes have been awaited. -/
def bucketStep (ops : Operations) (n : String) (wr : Option WaResult)
    (sr : Option SmsResult) (st : Results × RunStats) : Results × RunStats :=
  stepProcessed n wr sr (stepBuckets ops n wr sr st)

/-- One number of the loop body of `process_numbers`
(bot.py lines 254-331): the check for each enabled kind is awaited
(WhatsApp first, then SMS, lines 272-285); an exception from an await
propagates out of `process_numbers`, which has no try/except. -/
def processOne (port : CheckerPort) (ops : Operations) (st : Results × RunStats)
    (n : String) : Except String (Results × RunStats) :=
  match (if ops.whatsapp then Except.map some (port.whatsapp n) else .ok none) with
  | .error e => .error e
  | .ok wr =>
    match (if ops.sms then Except.map some (port.sms n) else .ok none) with
    | .error e => .error e
    | .ok sr => .ok (bucketStep ops n wr sr st)

/-- The loop of `process_numbers` over the input numbers in order; an
exception at any number aborts the loop and propagates. -/
def processList (port : CheckerPort) (ops : Operations) :
    List String → Results × RunStats → Except String (Results × RunStats)
  | [], st => .ok st
  | n :: rest, st =>
    match processOne port ops st n with
    | .error e => .error e
    | .ok st' => processList port ops rest st'

/-- The initial `results`/`stats` pair of `process_numbers`
(bot.py lines 230-246): empty buckets, `total = len(numbers)`. -/
def initState (numbers : List String) : Results × RunStats :=
  (⟨[], [], [], [], [], []⟩, ⟨numbers.length, 0, 0, 0, 0, 0⟩)

/-- `process_numbers` (bot.py lines 223-337), parameterized by the checker
port (spec section 4.2); the source hard-wires `simPort`.  Batching in
groups of 10 with an inter-batch sleep affects pacing only: outcomes are
awaited per number in input order either way. -/
def process_numbers (port : CheckerPort) (numbers : List String)
    (ops : Operations) : Except String (Results × RunStats) :=
  processList port ops numbers (initState numbers)

/-- The state transformer of one number under a total port. -/
def stepT (w : String → WaResult) (s : String → SmsResult) (ops : Operations)
    (st : Results × RunStats) (n : String) : Results × RunStats :=
  bucketStep ops n (if ops.whatsapp then some (w n) else none)
    (if ops.sms then some (s n) else none) st

/-- Modelled from the spec: a number satisfies the configured polarity
filter of a kind (`any` | `true-only` | `false-only`, spec section 3)
precisely when its boolean outcome agrees with the filter.  Used to state
claim C6 against the code-side `matchOf`. -/
def polarityHolds (pty : PType) (status : Bool) : Prop :=
  match pty with
  | PType.all => True
  | PType.on => status = true
  | PType.off => status = false

/-- The 1000-number hard cap applied before a run (bot.py lines 672-674
in `handle_text_message` and 797-799 in `handle_document`): the boolean
records whether the truncation warning message is sent to the caller. -/
def truncateToCap (numbers : List String) : List String × Bool :=
  if 1000 < numbers.length then (numbers.take 1000, true) else (numbers, false)

/-- `handle_manual_operation` (bot.py lines 721-762) as a pure function
from the command text to the resulting `operations`: reset all fields
(lines 729-733), then apply each comma-separated, stripped part
(lines 736-750).  The function is total — no part sequence is rejected. -/
def parseManualOperation (text : String) : Operations :=
  let parts := (splitOnChar ',' text.data).map (fun p => String.mk (pyStrip p))
  parts.foldl
    (fun ops part =>
      if part = "1" then {ops with whatsapp := true, whatsapp_type := PType.on}
      else if part = "2" then {ops with whatsapp := true, whatsapp_type := PType.off}
      else if part = "3" then {ops with sms := true, sms_type := PType.on}
      else if part = "4" then {ops with sms := true, sms_type := PType.off}
      else if pyLower part = "c" then {ops with combo_mode := true}
      else ops)
    ⟨false, false, false, PType.all, PType.all⟩

/-- Python runtime errors relevant to the embedding.  CPython raises
`UnboundLocalError` (a `NameError`) when a function-local variable is read
before its first assignment. -/
inductive PyError
  | unboundLocal (name : String)
deriving DecidableEq

/-- The per-button `operations` updates of `button_callback`
(bot.py lines 581-630), as a pure function of the callback payload.
Unknown payloads and `op_apply` leave the operations unchanged. -/
def buttonAction (data : String) (ops : Operations) : Operations :=
  if data = "op_1" then {ops with whatsapp := true, whatsapp_type := PType.on, sms := false}
  else if data = "op_2" then {ops with whatsapp := true, whatsapp_type := PType.off, sms := false}
  else if data = "op_3" then {ops with whatsapp := false, sms := true, sms_type := PType.on}
  else if data = "op_4" then {ops with whatsapp := false, sms := true, sms_type := PType.off}
  else if data = "op_combo" then {ops with combo_mode := !ops.combo_mode}
  else if data = "op_apply" then ops
  else if data = "op_reset" then defaultOperations
  else ops

/-- Association-list update of the `user_sessions` map (bot.py line 97). -/
def updateSessions (uid : Nat) (ops : Operations) :
    List (Nat × Operations) → List (Nat × Operations)
  | [] => [(uid, ops)]
  | (k, v) :: rest =>
    if k = uid then (k, ops) :: rest else (k, v) :: updateSessions uid ops rest

/-- `button_callback` (bot.py lines 571-630).  Line 577 reads
`user_data = get_user_data(user_data)`: because `user_data` is assigned in
the function body, it is a local variable throughout the body, and the
argument expression reads it before any assignment — CPython raises
`UnboundLocalError` there, before `get_user_data` (and hence any session
read, insert or update) runs.  The unbound local at that read is modelled
as `(none : Option Operations)`; the per-button updates (`buttonAction`)
sit in the unreachable `some` branch. -/
def button_callback (uid : Nat) (data : String)
    (sessions : List (Nat × Operations)) :
    Except PyError (List (Nat × Operations)) :=
  match (none : Option Operations) with
  | some user_data => .ok (updateSessions uid (buttonAction data user_data) sessions)
  | none => .error (PyError.unboundLocal "user_data")

/-- The character class of the manual-operation regex
`r'^[1-4,c\s]+$'` (bot.py line 643). -/
def opClass (c : Char) : Bool :=
  c == '1' || c == '2' || c == '3' || c == '4' || c == ',' || c == 'c' || pyIsSpace c

/-- Python `text.replace(',', '')` (bot.py line 643). -/
def commaFree (l : List Char) : List Char :=
  l.filter (fun c => c != ',')

/-- `re.match(r'^[1-4,c\s]+$', s)` succeeds iff `s` is nonempty and every
character lies in the class (the `$`-before-trailing-newline nuance is
vacuous because `\n` is itself in the class). -/
def manualOpRegexMatches (l : List Char) : Bool :=
  !l.isEmpty && l.all opClass

/-- Where `handle_text_message` sends a text. -/
inductive TextRoute
  | manualOp
  | scanNumbers
deriving DecidableEq

/-- The routing decision of `handle_text_message` (bot.py lines 641-646):
strip the message text; if the comma-free form matches the
manual-operation regex, treat it as a settings command, otherwise scan it
for phone numbers. -/
def routeTextMessage (raw : String) : TextRoute :=
  if manualOpRegexMatches (commaFree (pyStrip raw.data)) then TextRoute.manualOp
  else TextRoute.scanNumbers

/-- A total WhatsApp outcome function used as a concrete witness port. -/
def constWa : String → WaResult := fun _ => ⟨true, "On WhatsApp"⟩

/-- A total SMS outcome function used as a concrete witness port. -/
def constSms : String → SmsResult := fun _ => ⟨true, "Can receive SMS", none⟩

/-- Concrete operations for the C1 witness run: both kinds enabled,
polarity `all`, combo off. -/
def c1WitnessOps : Operations := ⟨true, true, false, PType.all, PType.all⟩

/-- Concrete operations for the C6 witness run: both kinds enabled,
polarity `on`, combo on. -/
def c6WitnessOps : Operations := ⟨true, true, true, PType.on, PType.on⟩

/-- The combined filter condition of the combo branch
(`whatsapp_match and sms_match`, bot.py line 305) for a number under a
total port. -/
def comboCond (w : String → WaResult) (s : String → SmsResult) (ops : Operations)
    (x : String) : Bool :=
  matchOf ops.whatsapp ops.whatsapp_type
      ((if ops.whatsapp then some (w x) else none).map (·.status)) &&
  matchOf ops.sms ops.sms_type
      ((if ops.sms then some (s x) else none).map (·.status))

/-- Every digit of the string lies in `{1, 2, 3, 4}` (non-digit characters
are not constrained). -/
def digitsIn1234 (t : String) : Bool :=
  t.data.all fun c => !c.isDigit || (c == '1' || c == '2' || c == '3' || c == '4')

/-- The result buckets of the C1 witness run (`constWa`/`constSms` on the
single number `2348012345678` under `c1WitnessOps`). -/
def c1WitnessRes : Results :=
  ⟨["2348012345678"], [], ["2348012345678"], [], [],
   [⟨"2348012345678", some ⟨true, "On WhatsApp"⟩,
     some ⟨true, "Can receive SMS", none⟩⟩]⟩

/-- The run statistics of the C1 witness run. -/
def c1WitnessStats : RunStats := ⟨1, 1, 0, 1, 0, 0⟩

/-- The result buckets of the C6 witness run (`constWa`/`constSms` on the
single number `2348012345678` under `c6WitnessOps`). -/
def c6WitnessRes : Results :=
  ⟨[], [], [], [], ["2348012345678"],
   [⟨"2348012345678", some ⟨true, "On WhatsApp"⟩,
     some ⟨true, "Can receive SMS", none⟩⟩]⟩

/-- The run statistics of the C6 witness run. -/
def c6WitnessStats : RunStats := ⟨1, 0, 0, 0, 0, 1⟩

/-!
## Helper lemmas
-/

theorem acceptCountry_eq_some {l : List Char} {s : String}
    (h : acceptCountry l = some s) : s = String.mk l := by
  unfold acceptCountry at h
  split at h
  · injection h with h'
    exact h'.symm
  · split at h
    · injection h with h'
      exact h'.symm
    · cases h

theorem head_dropWhile_zero (l : List Char) :
    (l.dropWhile (fun c => c == '0')).head? ≠ some '0' := by
  induction l with
  | nil => simp
  | cons c cs ih =>
    rw [List.dropWhile_cons]
    by_cases hc : (c == '0') = true
    · rw [if_pos hc]
      exact ih
    · rw [if_neg hc]
      simp at hc ⊢
      exact hc

theorem dropLeadingPlus_subset (l : List Char) : dropLeadingPlus l ⊆ l := by
  unfold dropLeadingPlus
  split
  · exact List.subset_cons_self _ _
  · exact fun a h => h

theorem mem_normCanon_keepChar {t : String} {c : Char} (h : c ∈ normCanon t) :
    keepChar c = true := by
  unfold normCanon at h
  have h1 : c ∈ dropLeadingPlus ((pyStrip t.data).filter keepChar) :=
    (List.dropWhile_sublist _).subset h
  have h2 : c ∈ (pyStrip t.data).filter keepChar :=
    dropLeadingPlus_subset _ h1
  exact (List.mem_filter.mp h2).2

theorem processOne_total (w : String → WaResult) (s : String → SmsResult)
    (ops : Operations) (st : Results × RunStats) (n : String) :
    processOne (totalPort w s) ops st n = .ok (stepT w s ops st n) := by
  unfold processOne totalPort stepT
  cases hw : ops.whatsapp <;> cases hs : ops.sms <;> simp [Except.map]

theorem processList_total (w : String → WaResult) (s : String → SmsResult)
    (ops : Operations) :
    ∀ (ns : List String) (st : Results × RunStats),
      processList (totalPort w s) ops ns st =
        .ok (List.foldl (stepT w s ops) st ns) := by
  intro ns
  induction ns with
  | nil => intro st; rfl
  | cons a tl ih =>
    intro st
    simp [processList, processOne_total, ih, List.foldl_cons]

theorem process_numbers_total (w : String → WaResult) (s : String → SmsResult)
    (ops : Operations) (ns : List String) :
    process_numbers (totalPort w s) ns ops =
      .ok (List.foldl (stepT w s ops) (initState ns) ns) :=
  processList_total w s ops ns (initState ns)

theorem smsClassify_wa_on (ops : Operations) (n : String) (sr : Option SmsResult)
    (st : Results × RunStats) :
    (smsClassify ops n sr st).1.whatsapp_on = st.1.whatsapp_on := by
  unfold smsClassify
  split
  · split <;> rfl
  · rfl

theorem smsClassify_wa_off (ops : Operations) (n : String) (sr : Option SmsResult)
    (st : Results × RunStats) :
    (smsClassify ops n sr st).1.whatsapp_off = st.1.whatsapp_off := by
  unfold smsClassify
  split
  · split <;> rfl
  · rfl

theorem waClassify_sms_on (ops : Operations) (n : String) (wr : Option WaResult)
    (st : Results × RunStats) :
    (waClassify ops n wr st).1.sms_on = st.1.sms_on := by
  unfold waClassify
  split
  · split <;> rfl
  · rfl

theorem waClassify_sms_off (ops : Operations) (n : String) (wr : Option WaResult)
    (st : Results × RunStats) :
    (waClassify ops n wr st).1.sms_off = st.1.sms_off := by
  unfold waClassify
  split
  · split <;> rfl
  · rfl

theorem stepT_wa_on (w : String → WaResult) (s : String → SmsResult)
    (ops : Operations) (hc : ops.combo_mode = false) (hw : ops.whatsapp = true)
    (ht : ops.whatsapp_type = PType.all) (st : Results × RunStats) (a : String) :
    (stepT w s ops st a).1.whatsapp_on =
      st.1.whatsapp_on ++ (if (w a).status = true then [a] else []) := by
  unfold stepT bucketStep stepBuckets stepProcessed
  rw [hc]
  simp only [Bool.false_eq_true, if_false, smsClassify_wa_on]
  unfold waClassify matchOf
  rw [hw, ht]
  by_cases hst : (w a).status = true <;> simp [hst]

theorem stepT_wa_off (w : String → WaResult) (s : String → SmsResult)
    (ops : Operations) (hc : ops.combo_mode = false) (hw : ops.whatsapp = true)
    (ht : ops.whatsapp_type = PType.all) (st : Results × RunStats) (a : String) :
    (stepT w s ops st a).1.whatsapp_off =
      st.1.whatsapp_off ++ (if (w a).status = true then [] else [a]) := by
  unfold stepT bucketStep stepBuckets stepProcessed
  rw [hc]
  simp only [Bool.false_eq_true, if_false, smsClassify_wa_off]
  unfold waClassify matchOf
  rw [hw, ht]
  by_cases hst : (w a).status = true <;> simp [hst]

theorem stepT_sms_on (w : String → WaResult) (s : String → SmsResult)
    (ops : Operations) (hc : ops.combo_mode = false) (hs : ops.sms = true)
    (ht : ops.sms_type = PType.all) (st : Results × RunStats) (a : String) :
    (stepT w s ops st a).1.sms_on =
      st.1.sms_on ++ (if (s a).status = true then [a] else []) := by
  unfold stepT bucketStep stepBuckets stepProcessed
  rw [hc]
  simp only [Bool.false_eq_true, if_false]
  unfold smsClassify matchOf
  rw [hs, ht]
  by_cases hst : (s a).status = true <;> simp [hst, waClassify_sms_on]

theorem stepT_sms_off (w : String → WaResult) (s : String → SmsResult)
    (ops : Operations) (hc : ops.combo_mode = false) (hs : ops.sms = true)
    (ht : ops.sms_type = PType.all) (st : Results × RunStats) (a : String) :
    (stepT w s ops st a).1.sms_off =
      st.1.sms_off ++ (if (s a).status = true then [] else [a]) := by
  unfold stepT bucketStep stepBuckets stepProcessed
  rw [hc]
  simp only [Bool.false_eq_true, if_false]
  unfold smsClassify matchOf
  rw [hs, ht]
  by_cases hst : (s a).status = true <;> simp [hst, waClassify_sms_off]

theorem stepT_combo (w : String → WaResult) (s : String → SmsResult)
    (ops : Operations) (hc : ops.combo_mode = true) (st : Results × RunStats)
    (a : String) :
    (stepT w s ops st a).1.combo =
      st.1.combo ++ (if comboCond w s ops a = true then [a] else []) := by
  have hsb : stepBuckets ops a (if ops.whatsapp then some (w a) else none)
      (if ops.sms then some (s a) else none) st =
      if comboCond w s ops a then comboAdd a st else st := by
    unfold stepBuckets comboCond
    rw [hc]
    rw [if_pos rfl]
  unfold stepT bucketStep stepProcessed
  rw [hsb]
  cases hcc : comboCond w s ops a <;> simp [hcc, comboAdd]

theorem foldl_wa_on (w : String → WaResult) (s : String → SmsResult)
    (ops : Operations) (hc : ops.combo_mode = false) (hw : ops.whatsapp = true)
    (ht : ops.whatsapp_type = PType.all) :
    ∀ (ns : List String) (st : Results × RunStats) (x : String),
      x ∈ (List.foldl (stepT w s ops) st ns).1.whatsapp_on ↔
        x ∈ st.1.whatsapp_on ∨ (x ∈ ns ∧ (w x).status = true) := by
  intro ns
  induction ns with
  | nil => intro st x; simp
  | cons a tl ih =>
    intro st x
    rw [List.foldl_cons, ih, stepT_wa_on w s ops hc hw ht]
    by_cases hxa : x = a
    · subst hxa
      by_cases hst : (w x).status = true <;>
        simp [hst, List.mem_append]
    · by_cases hst : (w a).status = true <;>
        simp [hst, List.mem_append, hxa]

theorem foldl_wa_off (w : String → WaResult) (s : String → SmsResult)
    (ops : Operations) (hc : ops.combo_mode = false) (hw : ops.whatsapp = true)
    (ht : ops.whatsapp_type = PType.all) :
    ∀ (ns : List String) (st : Results × RunStats) (x : String),
      x ∈ (List.foldl (stepT w s ops) st ns).1.whatsapp_off ↔
        x ∈ st.1.whatsapp_off ∨ (x ∈ ns ∧ (w x).status = false) := by
  intro ns
  induction ns with
  | nil => intro st x; simp
  | cons a tl ih =>
    intro st x
    rw [List.foldl_cons, ih, stepT_wa_off w s ops hc hw ht]
    by_cases hxa : x = a
    · subst hxa
      by_cases hst : (w x).status = true <;>
        simp [hst, List.mem_append]
    · by_cases hst : (w a).status = true <;>
        simp [hst, List.mem_append, hxa]

theorem foldl_sms_on (w : String → WaResult) (s : String → SmsResult)
    (ops : Operations) (hc : ops.combo_mode = false) (hs : ops.sms = true)
    (ht : ops.sms_type = PType.all) :
    ∀ (ns : List String) (st : Results × RunStats) (x : String),
      x ∈ (List.foldl (stepT w s ops) st ns).1.sms_on ↔
        x ∈ st.1.sms_on ∨ (x ∈ ns ∧ (s x).status = true) := by
  intro ns
  induction ns with
  | nil => intro st x; simp
  | cons a tl ih =>
    intro st x
    rw [List.foldl_cons, ih, stepT_sms_on w s ops hc hs ht]
    by_cases hxa : x = a
    · subst hxa
      by_cases hst : (s x).status = true <;>
        simp [hst, List.mem_append]
    · by_cases hst : (s a).status = true <;>
        simp [hst, List.mem_append, hxa]

theorem foldl_sms_off (w : String → WaResult) (s : String → SmsResult)
    (ops : Operations) (hc : ops.combo_mode = false) (hs : ops.sms = true)
    (ht : ops.sms_type = PType.all) :
    ∀ (ns : List String) (st : Results × RunStats) (x : String),
      x ∈ (List.foldl (stepT w s ops) st ns).1.sms_off ↔
        x ∈ st.1.sms_off ∨ (x ∈ ns ∧ (s x).status = false) := by
  intro ns
  induction ns with
  | nil => intro st x; simp
  | cons a tl ih =>
    intro st x
    rw [List.foldl_cons, ih, stepT_sms_off w s ops hc hs ht]
    by_cases hxa : x = a
    · subst hxa
      by_cases hst : (s x).status = true <;>
        simp [hst, List.mem_append]
    · by_cases hst : (s a).status = true <;>
        simp [hst, List.mem_append, hxa]

theorem foldl_combo (w : String → WaResult) (s : String → SmsResult)
    (ops : Operations) (hc : ops.combo_mode = true) :
    ∀ (ns : List String) (st : Results × RunStats) (x : String),
      x ∈ (List.foldl (stepT w s ops) st ns).1.combo ↔
        x ∈ st.1.combo ∨ (x ∈ ns ∧ comboCond w s ops x = true) := by
  intro ns
  induction ns with
  | nil => intro st x; simp
  | cons a tl ih =>
    intro st x
    rw [List.foldl_cons, ih, stepT_combo w s ops hc]
    by_cases hxa : x = a
    · subst hxa
      by_cases hcc : comboCond w s ops x = true <;>
        simp [hcc, List.mem_append]
    · by_cases hcc : comboCond w s ops a = true <;>
        simp [hcc, List.mem_append, hxa]

theorem polarity_of_matchOf (pty : PType) (b : Bool)
    (h : matchOf true pty (some b) = true) : polarityHolds pty b := by
  cases pty <;> simp [matchOf, polarityHolds] at h ⊢ <;> trivial

theorem processOne_fails (port : CheckerPort) (ops : Operations)
    (st : Results × RunStats) (n : String)
    (hbad : (ops.whatsapp = true ∧ ∃ e, port.whatsapp n = .error e) ∨
      (ops.sms = true ∧ ∃ e, port.sms n = .error e)) :
    ∃ e', processOne port ops st n = .error e' := by
  rcases hbad with ⟨hw, e, he⟩ | ⟨hs, e, he⟩
  · refine ⟨e, ?_⟩
    unfold processOne
    rw [hw, he]
    rfl
  · unfold processOne
    cases hwv : (if ops.whatsapp then Except.map some (port.whatsapp n)
        else Except.ok none) with
    | error e1 => exact ⟨e1, rfl⟩
    | ok wr =>
      refine ⟨e, ?_⟩
      rw [hs, he]
      rfl

theorem processList_fails (port : CheckerPort) (ops : Operations) (n : String)
    (hbad : (ops.whatsapp = true ∧ ∃ e, port.whatsapp n = .error e) ∨
      (ops.sms = true ∧ ∃ e, port.sms n = .error e)) :
    ∀ (ns : List String) (st : Results × RunStats), n ∈ ns →
      ∃ e', processList port ops ns st = .error e' := by
  intro ns
  induction ns with
  | nil => intro st h; cases h
  | cons a tl ih =>
    intro st hmem
    cases hpa : processOne port ops st a with
    | error e1 =>
      refine ⟨e1, ?_⟩
      unfold processList
      rw [hpa]
    | ok st' =>
      rcases List.mem_cons.mp hmem with heq | htl
      · subst heq
        obtain ⟨e', he'⟩ := processOne_fails port ops st n hbad
        rw [hpa] at he'
        cases he'
      · obtain ⟨e', he'⟩ := ih st' htl
        refine ⟨e', ?_⟩
        unfold processList
        rw [hpa]
        exact he'

/-!
## Claim C2 — output shape of `normalize_phone_number`
-/

/-- Claim C2, counterexample: the claim states that `normalize(t)` is
`None` or a string of 8-15 characters that are all digits; but the code
removes only whitespace, dashes and parentheses and never checks
digit-ness, so the all-letter token `"abcdefghij"` (length 10, no
country-code prefix, accepted by the length-10 fallback) is returned
unchanged even though none of its characters is a digit. -/
theorem c2_counterexample :
    normalize_phone_number "abcdefghij" = some "abcdefghij" ∧
      "abcdefghij".data.all Char.isDigit = false := by
  exact ⟨rfl, by decide⟩

/-- Claim C2 (amended): `normalize_phone_number t` returns either `none`
or a string of 8 to 15 characters that does not begin with `'0'` and
contains no whitespace, dash or parenthesis, obtained after dropping a
single leading `'+'` and stripping leading zeros; characters other than
digits may remain, because digit-ness is never enforced. -/
theorem c2_amended_shape (t s : String)
    (h : normalize_phone_number t = some s) :
    8 ≤ s.data.length ∧ s.data.length ≤ 15 ∧ s.data.head? ≠ some '0' ∧
      ∀ c ∈ s.data, keepChar c = true := by
  unfold normalize_phone_number normAccept at h
  split at h
  · cases h
  · next hlen =>
    have hs : s = String.mk (normCanon t) := acceptCountry_eq_some h
    have hdata : s.data = normCanon t := by rw [hs]
    push_neg at hlen
    refine ⟨?_, ?_, ?_, ?_⟩
    · rw [hdata]; omega
    · rw [hdata]; omega
    · rw [hdata]
      unfold normCanon
      exact head_dropWhile_zero _
    · intro c hc
      rw [hdata] at hc
      exact mem_normCanon_keepChar hc

/-- Claim C2 witness: a concrete token on which the amended shape theorem
applies, with the hypothesis discharged by evaluation. -/
theorem c2_amended_shape_witness :
    normalize_phone_number "+2348012345678" = some "2348012345678" ∧
      (8 ≤ "2348012345678".data.length ∧ "2348012345678".data.length ≤ 15 ∧
        "2348012345678".data.head? ≠ some '0' ∧
        ∀ c ∈ "2348012345678".data, keepChar c = true) :=
  ⟨by decide, c2_amended_shape "+2348012345678" "2348012345678" (by decide)⟩

/-!
## Claim C4 — combo mode accepted with fewer than 2 enabled kinds
-/

/-- Claim C4 (code bug), evaluation at the failing input: the
manual-operation text `"1,c"` enables only the WhatsApp kind yet sets
`combo_mode` to true, and the configuration is stored as-is.
`parseManualOperation` is total — `handle_manual_operation` has no
rejection path at all, and the `op_combo` button (bot.py lines 605-608)
likewise toggles combo without any check — even though the claim, the
spec, and the bot's own `/setop` help text ("Combo requires 2+
operations", bot.py line 508) require such a request to be rejected at
configuration time. -/
theorem c4_combo_accepted_eval :
    parseManualOperation "1,c" = ⟨true, false, true, PType.on, PType.all⟩ := by
  rfl

/-!
## Claim C5 — country-code acceptance after the length check
-/

/-- Claim C5 (confirmed): for every digit string that passed the length
check (8-15 characters), the acceptance phase of `normalize_phone_number`
(the `VALID_COUNTRY_CODES` loop plus the length-10 fallback, embedded as
`acceptCountry` and reached via `normAccept`) accepts the string as-is
when some allow-listed code is a prefix with at least one character
remaining, and otherwise accepts it exactly when the digit length is at
least 10, returning `none` below that. -/
theorem c5_country_code_acceptance (l : List Char)
    (hdig : l.all Char.isDigit = true) (h8 : 8 ≤ l.length)
    (h15 : l.length ≤ 15) :
    normAccept l = acceptCountry l ∧
    ((∃ cc ∈ VALID_COUNTRY_CODES,
        cc.data.isPrefixOf l = true ∧ cc.data.length < l.length) →
      acceptCountry l = some (String.mk l)) ∧
    (¬(∃ cc ∈ VALID_COUNTRY_CODES,
        cc.data.isPrefixOf l = true ∧ cc.data.length < l.length) →
      (acceptCountry l = some (String.mk l) ↔ 10 ≤ l.length)) := by
  refine ⟨?_, ?_, ?_⟩
  · unfold normAccept
    rw [if_neg]
    omega
  · rintro ⟨cc, hmem, hpre, hlt⟩
    unfold acceptCountry
    rw [if_pos]
    exact List.any_eq_true.mpr ⟨cc, hmem, by rw [hpre]; simpa using hlt⟩
  · intro hnone
    unfold acceptCountry
    rw [if_neg]
    · by_cases h10 : 10 ≤ l.length <;> simp [h10]
    · intro hany
      obtain ⟨cc, hmem, hcc⟩ := List.any_eq_true.mp hany
      rw [Bool.and_eq_true, decide_eq_true_iff] at hcc
      exact hnone ⟨cc, hmem, hcc.1, hcc.2⟩

/-- Claim C5 witness: the acceptance phase evaluated on the digits of
`2348012345678` (country code `234` is an allow-listed proper prefix). -/
theorem c5_country_code_acceptance_witness :
    "2348012345678".data.all Char.isDigit = true ∧
      8 ≤ "2348012345678".data.length ∧ "2348012345678".data.length ≤ 15 ∧
      (normAccept "2348012345678".data = acceptCountry "2348012345678".data ∧
        ((∃ cc ∈ VALID_COUNTRY_CODES,
            cc.data.isPrefixOf "2348012345678".data = true ∧
              cc.data.length < "2348012345678".data.length) →
          acceptCountry "2348012345678".data =
            some (String.mk "2348012345678".data)) ∧
        (¬(∃ cc ∈ VALID_COUNTRY_CODES,
            cc.data.isPrefixOf "2348012345678".data = true ∧
              cc.data.length < "2348012345678".data.length) →
          (acceptCountry "2348012345678".data =
              some (String.mk "2348012345678".data) ↔
            10 ≤ "2348012345678".data.length))) :=
  ⟨by decide, by decide, by decide,
    c5_country_code_acceptance "2348012345678".data (by decide) (by decide)
      (by decide)⟩

/-!
## Claim C7 — 1000-number hard cap with truncation notice
-/

/-- Claim C7 (confirmed): whenever more than 1000 normalized numbers reach
a run, the handlers keep exactly the first 1000 (`numbers[:1000]`) and
send the truncation warning (`truncateToCap` returns the notice flag
`true`); the remainder is dropped only after that explicit notice. -/
theorem c7_truncation (ns : List String) (h : 1000 < ns.length) :
    truncateToCap ns = (ns.take 1000, true) ∧ (ns.take 1000).length = 1000 := by
  constructor
  · unfold truncateToCap
    rw [if_pos h]
  · rw [List.length_take]
    omega

/-- Claim C7 witness: a 1500-number input is truncated to exactly its
first 1000 entries with the notice flag set. -/
theorem c7_truncation_witness :
    1000 < (List.replicate 1500 "2348012345678").length ∧
      (truncateToCap (List.replicate 1500 "2348012345678") =
          ((List.replicate 1500 "2348012345678").take 1000, true) ∧
        ((List.replicate 1500 "2348012345678").take 1000).length = 1000) :=
  ⟨by simp only [List.length_replicate]; omega,
    c7_truncation _ (by simp only [List.length_replicate]; omega)⟩

/-!
## Claim C8 — extraction has set semantics
-/

/-- Claim C8 (confirmed): `extract_numbers_from_text` (and the file
variant) deduplicates across the whole input — the result has no repeated
element, and as a set it equals exactly the set of normalized tokens
collected before deduplication.  Both extractors are pure functions of
their input, so re-running on the same input yields the identical result,
in particular the same set. -/
theorem c8_extract_dedup (text content filename : String) :
    (extract_numbers_from_text text).Nodup ∧
      (extract_numbers_from_text text).toFinset =
        (rawExtractedNumbers text).toFinset ∧
      (extract_numbers_from_file content filename).Nodup := by
  refine ⟨List.nodup_dedup _, ?_, List.nodup_dedup _⟩
  ext a
  simp [extract_numbers_from_text]

/-!
## Claim C9 — the button callback always raises before touching state
-/

/-- Claim C9 (confirmed): every invocation of `button_callback`, for every
button payload and every session store, fails with the name-resolution
error on the local `user_data` read at line 577 — before `get_user_data`
runs and before any session state is read or written — so no button press
(including `op_reset` and `op_combo`) ever changes any caller's
operations: the error leaves the session store exactly as passed in. -/
theorem c9_button_callback_unbound (uid : Nat) (data : String)
    (sessions : List (Nat × Operations)) :
    button_callback uid data sessions =
      .error (PyError.unboundLocal "user_data") :=
  rfl

/-!
## Claim C10 — routing of manual-operation texts
-/

/-- Claim C10, counterexample: the claim states that a pasted phone number
all of whose digits are in `{1,2,3,4}` can never be submitted for checking
as text; but `"+1234123412"` has every digit in `{1,2,3,4}`, fails the
manual-operation regex because of the `'+'` (not in the class
`[1-4,c\s]`), is therefore routed to number scanning, and extraction
normalizes and submits it. -/
theorem c10_counterexample :
    digitsIn1234 "+1234123412" = true ∧
      routeTextMessage "+1234123412" = TextRoute.scanNumbers ∧
      extract_numbers_from_text "+1234123412" = ["1234123412"] :=
  ⟨by decide, rfl, rfl⟩

/-- Claim C10 (amended): every text message whose stripped form, after
removing commas, is nonempty and consists only of characters in
`{1,2,3,4,',','c'} ∪ whitespace` is routed to the manual operation-setting
command and never scanned for phone numbers; in particular a pasted number
written without `'+'` using only the digits 1-4 is never checked, though a
`'+'`-prefixed one is scanned normally. -/
theorem c10_amended_routing (raw : String)
    (h1 : commaFree (pyStrip raw.data) ≠ [])
    (h2 : (commaFree (pyStrip raw.data)).all opClass = true) :
    routeTextMessage raw = TextRoute.manualOp := by
  have hne : (commaFree (pyStrip raw.data)).isEmpty = false := by
    cases hh : commaFree (pyStrip raw.data) with
    | nil => exact absurd hh h1
    | cons a l => rfl
  unfold routeTextMessage
  rw [if_pos]
  unfold manualOpRegexMatches
  rw [hne, h2]
  rfl

/-- Claim C10 witness: the manual command `"2,4,c"` satisfies the
character-class hypotheses and is routed to the manual operation
handler. -/
theorem c10_amended_routing_witness :
    commaFree (pyStrip "2,4,c".data) ≠ [] ∧
      (commaFree (pyStrip "2,4,c".data)).all opClass = true ∧
      routeTextMessage "2,4,c" = TextRoute.manualOp :=
  ⟨by decide, by decide, c10_amended_routing "2,4,c" (by decide) (by decide)⟩

/-!
## Claim C1 — non-combo bucketing versus polarity filters
-/

/-- Claim C1, counterexample: the claim states that in non-combo mode the
`whatsapp_on`/`whatsapp_off` buckets partition the processed numbers
irrespective of the configured polarity filter; but with the WhatsApp kind
enabled under polarity `on`, the number `12345678` (whose simulated
outcome is negative: last digit 8, 8 % 3 = 2) fails `whatsapp_match` and
is classified into neither bucket even though it is processed. -/
theorem c1_counterexample :
    process_numbers (simPort 1) ["12345678"]
        ⟨true, false, false, PType.on, PType.all⟩ =
      .ok (⟨[], [], [], [], [],
            [⟨"12345678", some ⟨false, "Not on WhatsApp"⟩, none⟩]⟩,
           ⟨1, 0, 0, 0, 0, 0⟩) := by
  rfl

/-- Claim C1 (amended): in non-combo mode a processed number is classified
into `<kind>_on`/`<kind>_off` by its outcome only if it satisfies that
kind's configured polarity filter; in particular, for every enabled kind
whose polarity filter is `all`, the `<kind>_on` and `<kind>_off` buckets
partition the processed set exactly. -/
theorem c1_amended_partition (w : String → WaResult) (s : String → SmsResult)
    (ops : Operations) (ns : List String) (res : Results) (stats : RunStats)
    (hc : ops.combo_mode = false)
    (hrun : process_numbers (totalPort w s) ns ops = .ok (res, stats)) :
    ∀ x : String,
      (ops.whatsapp = true → ops.whatsapp_type = PType.all →
        ((x ∈ ns ↔ x ∈ res.whatsapp_on ∨ x ∈ res.whatsapp_off) ∧
          ¬(x ∈ res.whatsapp_on ∧ x ∈ res.whatsapp_off))) ∧
      (ops.sms = true → ops.sms_type = PType.all →
        ((x ∈ ns ↔ x ∈ res.sms_on ∨ x ∈ res.sms_off) ∧
          ¬(x ∈ res.sms_on ∧ x ∈ res.sms_off))) := by
  have hfold := process_numbers_total w s ops ns
  rw [hrun] at hfold
  injection hfold with hpair
  have hres : res = (List.foldl (stepT w s ops) (initState ns) ns).1 :=
    congrArg Prod.fst hpair
  intro x
  constructor
  · intro he htype
    have hon := foldl_wa_on w s ops hc he htype ns (initState ns) x
    have hoff := foldl_wa_off w s ops hc he htype ns (initState ns) x
    rw [← hres] at hon hoff
    simp [initState] at hon hoff
    constructor
    · rw [hon, hoff]
      cases hstat : (w x).status <;> simp [hstat]
    · rw [hon, hoff]
      rintro ⟨⟨_, h1⟩, ⟨_, h2⟩⟩
      simp [h1] at h2
  · intro he htype
    have hon := foldl_sms_on w s ops hc he htype ns (initState ns) x
    have hoff := foldl_sms_off w s ops hc he htype ns (initState ns) x
    rw [← hres] at hon hoff
    simp [initState] at hon hoff
    constructor
    · rw [hon, hoff]
      cases hstat : (s x).status <;> simp [hstat]
    · rw [hon, hoff]
      rintro ⟨⟨_, h1⟩, ⟨_, h2⟩⟩
      simp [h1] at h2

/-- Claim C1 witness: a concrete non-combo run with both kinds enabled
under polarity `all`, where the partition property holds for the processed
number. -/
theorem c1_amended_partition_witness :
    c1WitnessOps.combo_mode = false ∧
      process_numbers (totalPort constWa constSms) ["2348012345678"]
          c1WitnessOps = .ok (c1WitnessRes, c1WitnessStats) ∧
      ((c1WitnessOps.whatsapp = true → c1WitnessOps.whatsapp_type = PType.all →
          (("2348012345678" ∈ ["2348012345678"] ↔
              "2348012345678" ∈ c1WitnessRes.whatsapp_on ∨
                "2348012345678" ∈ c1WitnessRes.whatsapp_off) ∧
            ¬("2348012345678" ∈ c1WitnessRes.whatsapp_on ∧
                "2348012345678" ∈ c1WitnessRes.whatsapp_off))) ∧
        (c1WitnessOps.sms = true → c1WitnessOps.sms_type = PType.all →
          (("2348012345678" ∈ ["2348012345678"] ↔
              "2348012345678" ∈ c1WitnessRes.sms_on ∨
                "2348012345678" ∈ c1WitnessRes.sms_off) ∧
            ¬("2348012345678" ∈ c1WitnessRes.sms_on ∧
                "2348012345678" ∈ c1WitnessRes.sms_off)))) :=
  ⟨rfl, by rfl,
    c1_amended_partition constWa constSms c1WitnessOps ["2348012345678"]
      c1WitnessRes c1WitnessStats rfl (by rfl) "2348012345678"⟩

/-!
## Claim C3 — checker errors abort the whole run
-/

/-- Claim C3, counterexample: the claim states that an error raised by the
checker port degrades to an undetermined outcome for that single pair and
the batch continues to completion; but with a port whose WhatsApp check
raises, `process_numbers` returns the propagated error — the run produces
no result set at all (the surrounding handler then reports a run-level
failure, bot.py lines 714-716). -/
theorem c3_counterexample :
    process_numbers failingPort ["2348012345678"] defaultOperations =
      .error "boom" := by
  rfl

/-- Claim C3 (amended): an error raised by the checker port for any
(number, enabled kind) pair of the batch propagates out of
`process_numbers` and aborts the entire run — the run returns the error
instead of any results, and the caller-level handler reports a run-level
failure; no per-pair degradation to an undetermined outcome exists. -/
theorem c3_amended_abort (port : CheckerPort) (ops : Operations)
    (ns : List String) (n : String) (hn : n ∈ ns)
    (hbad : (ops.whatsapp = true ∧ ∃ e, port.whatsapp n = .error e) ∨
      (ops.sms = true ∧ ∃ e, port.sms n = .error e)) :
    ∃ e', process_numbers port ns ops = .error e' :=
  processList_fails port ops n hbad ns (initState ns) hn

/-- Claim C3 witness: a singleton batch over the always-raising port
aborts with an error. -/
theorem c3_amended_abort_witness :
    "2348012345678" ∈ ["2348012345678"] ∧
      (defaultOperations.whatsapp = true ∧
        ∃ e, failingPort.whatsapp "2348012345678" = .error e) ∧
      ∃ e', process_numbers failingPort ["2348012345678"] defaultOperations =
        .error e' :=
  ⟨List.mem_singleton.mpr rfl, ⟨rfl, "boom", rfl⟩,
    c3_amended_abort failingPort defaultOperations ["2348012345678"]
      "2348012345678" (List.mem_singleton.mpr rfl) (Or.inl ⟨rfl, "boom", rfl⟩)⟩

/-!
## Claim C6 — the combo bucket respects every enabled kind's polarity
-/

/-- Claim C6 (confirmed): in combo mode, every number placed in the
`combo` bucket comes from the input and satisfies the configured polarity
filter of every enabled kind simultaneously — the combo bucket is
contained in the intersection of the per-kind matching sets. -/
theorem c6_combo_subset (w : String → WaResult) (s : String → SmsResult)
    (ops : Operations) (ns : List String) (res : Results) (stats : RunStats)
    (hc : ops.combo_mode = true)
    (hrun : process_numbers (totalPort w s) ns ops = .ok (res, stats)) :
    ∀ x, x ∈ res.combo →
      x ∈ ns ∧
        (ops.whatsapp = true → polarityHolds ops.whatsapp_type (w x).status) ∧
        (ops.sms = true → polarityHolds ops.sms_type (s x).status) := by
  have hfold := process_numbers_total w s ops ns
  rw [hrun] at hfold
  injection hfold with hpair
  have hres : res = (List.foldl (stepT w s ops) (initState ns) ns).1 :=
    congrArg Prod.fst hpair
  intro x hx
  rw [hres] at hx
  have hmem := (foldl_combo w s ops hc ns (initState ns) x).mp hx
  simp [initState] at hmem
  obtain ⟨hns, hcond⟩ := hmem
  unfold comboCond at hcond
  rw [Bool.and_eq_true] at hcond
  refine ⟨hns, ?_, ?_⟩
  · intro he
    have h1 := hcond.1
    rw [he] at h1
    simp at h1
    exact polarity_of_matchOf _ _ h1
  · intro he
    have h2 := hcond.2
    rw [he] at h2
    simp at h2
    exact polarity_of_matchOf _ _ h2

/-- Claim C6 witness: a concrete combo run with both kinds enabled under
polarity `on`; the combo bucket member satisfies both polarity filters. -/
theorem c6_combo_subset_witness :
    c6WitnessOps.combo_mode = true ∧
      process_numbers (totalPort constWa constSms) ["2348012345678"]
          c6WitnessOps = .ok (c6WitnessRes, c6WitnessStats) ∧
      ("2348012345678" ∈ c6WitnessRes.combo →
        "2348012345678" ∈ ["2348012345678"] ∧
          (c6WitnessOps.whatsapp = true →
            polarityHolds c6WitnessOps.whatsapp_type
              (constWa "2348012345678").status) ∧
          (c6WitnessOps.sms = true →
            polarityHolds c6WitnessOps.sms_type
              (constSms "2348012345678").status)) :=
  ⟨rfl, by rfl,
    c6_combo_subset constWa constSms c6WitnessOps ["2348012345678"]
      c6WitnessRes c6WitnessStats rfl (by rfl) "2348012345678"⟩

end Bot
